import Mathlib

/-!
Shallow embedding of the NextStep AI client-side stores and interaction
layer: the auth store (`src/unnamed/part_000`), the jobs store
(`src/unnamed/part_001`), the axios response interceptor
(`src/frontend/src/api/client.js`), the swipe card drag handler
(`src/unnamed/part_002`, `handleDragEnd`) and the discover page swipe
dispatcher (`handleSwipe`).  Remote calls are modelled by passing their
outcome (`Except ApiError _`) as an explicit argument; `localStorage` is
an explicit `Storage` record threaded through the functions.
-/

namespace NextStep

/-- Payload of a failed axios call: `error.response?.data` rendered as a
message, and `error.response?.data?.detail`.  `none` models an absent
field (network error, no response body). -/
structure ApiError where
  data : Option String := none
  detail : Option String := none
deriving Repr, DecidableEq

/-- JS `v || d` for an optional string `v`: falls back to the default on
`null`/`undefined` and also on the empty string (falsy in JS). -/
def jsOr (v : Option String) (d : String) : String :=
  match v with
  | some x => if x = "" then d else x
  | none => d

/-- The two `localStorage` keys the client uses. -/
structure Storage where
  access : Option String := none
  refresh : Option String := none
deriving Repr, DecidableEq

/-! ### Auth store (`src/unnamed/part_000`) -/

structure User where
  id : Nat
  email : String
deriving Repr, DecidableEq

structure Profile where
  id : Nat
deriving Repr, DecidableEq

/-- Body of a successful `POST /auth/login/` response. -/
structure Tokens where
  access : String
  refresh : String
deriving Repr, DecidableEq

structure AuthState where
  user : Option User := none
  profile : Option Profile := none
  isAuthenticated : Bool := false
  isLoading : Bool := false
  error : Option String := none
deriving Repr, DecidableEq

def initAuthState : AuthState := {}

def initStorage : Storage := {}

/-- `fetchUser`: `Promise.all([getMe, profile.get])` succeeds only when
both calls do; the internal `catch` clears user/profile and flips
`isAuthenticated` to false instead of rethrowing.  It touches neither
`isLoading` nor `error`. -/
def fetchUser (ur : Except ApiError User) (pr : Except ApiError Profile)
    (s : AuthState) : AuthState :=
  match ur, pr with
  | .ok u, .ok p =>
      { s with user := some u, profile := some p, isAuthenticated := true }
  | _, _ =>
      { s with user := none, profile := none, isAuthenticated := false }

/-- `login` starts by `set({ isLoading: true, error: null })`. -/
def loginStart (s : AuthState) : AuthState :=
  { s with isLoading := true, error := none }

structure LoginResult where
  state : AuthState
  storage : Storage
  returned : Bool
deriving Repr, DecidableEq

/-- Continuation of `login` after the start phase: on a successful
credential call both tokens are stored, `fetchUser` runs (its failures
are swallowed inside it), and then `isAuthenticated` is unconditionally
set to true and `true` is returned.  On a failed credential call the
error message is surfaced and `false` is returned. -/
def loginResolve (lr : Except ApiError Tokens) (ur : Except ApiError User)
    (pr : Except ApiError Profile) (s : AuthState) (st : Storage) : LoginResult :=
  match lr with
  | .ok tok =>
      let st1 : Storage := { access := some tok.access, refresh := some tok.refresh }
      let s1 := fetchUser ur pr s
      ⟨{ s1 with isAuthenticated := true, isLoading := false }, st1, true⟩
  | .error e =>
      ⟨{ s with error := some (jsOr e.detail "Login failed"), isLoading := false },
        st, false⟩

/-- `login(email, password)` with the outcomes of the three remote calls
passed explicitly. -/
def login (lr : Except ApiError Tokens) (ur : Except ApiError User)
    (pr : Except ApiError Profile) (s : AuthState) (st : Storage) : LoginResult :=
  loginResolve lr ur pr (loginStart s) st

/-- `register(userData)`: sets loading, creates the account, then
delegates to `login` with the same credentials; its own failure surfaces
`error.response?.data`. -/
def register (regRes : Except ApiError Unit) (lr : Except ApiError Tokens)
    (ur : Except ApiError User) (pr : Except ApiError Profile)
    (s : AuthState) (st : Storage) : LoginResult :=
  let s0 := { s with isLoading := true, error := none }
  match regRes with
  | .ok _ => login lr ur pr s0 st
  | .error e =>
      ⟨{ s0 with error := some (jsOr e.data "Registration failed"), isLoading := false },
        st, false⟩

/-- `updateProfile(data)`: sets `isLoading` (without clearing `error`),
then either stores the new profile or surfaces the failure. -/
def updateProfile (r : Except ApiError Profile) (s : AuthState) : AuthState × Bool :=
  let s0 := { s with isLoading := true }
  match r with
  | .ok p => ({ s0 with profile := some p, isLoading := false }, true)
  | .error e =>
      ({ s0 with error := some (jsOr e.data "Update failed"), isLoading := false }, false)

/-- `logout()`: clears both stored tokens and the in-memory session. -/
def logout (s : AuthState) (st : Storage) : AuthState × Storage :=
  ({ s with user := none, profile := none, isAuthenticated := false, error := none },
    { st with access := none, refresh := none })

/-! ### Jobs store (`src/unnamed/part_001`) -/

structure Job where
  id : Nat
  title : String := ""
  company : String := ""
deriving Repr, DecidableEq

/-- A record of `GET /saved-jobs/`: the store only inspects `status`. -/
structure SavedEntry where
  id : Nat
  job : Option Job := none
  status : String
deriving Repr, DecidableEq

/-- The saved/applied collections are heterogeneous in the source: an
optimistic append pushes a raw feed `Job`, while a refetch replaces the
lists with server entries. -/
inductive SavedItem where
  | feedJob (j : Job)
  | serverEntry (e : SavedEntry)
deriving Repr, DecidableEq

structure JobsState where
  jobs : List Job := []
  currentIndex : Nat := 0
  savedJobs : List SavedItem := []
  appliedJobs : List SavedItem := []
  isLoading : Bool := false
  error : Option String := none
deriving Repr, DecidableEq

def initJobsState : JobsState := {}

/-- `fetchRecommended` starts with `set({ isLoading: true, error: null })`. -/
def fetchRecommendedStart (s : JobsState) : JobsState :=
  { s with isLoading := true, error := none }

/-- Continuation of `fetchRecommended`: on success the feed is replaced
(`response.data.results || response.data`, modelled as the list itself)
and the cursor reset to 0; on failure the error is recorded and feed and
cursor are left alone. -/
def fetchRecommendedResolve (r : Except ApiError (List Job)) (s : JobsState) : JobsState :=
  match r with
  | .ok l => { s with jobs := l, currentIndex := 0, isLoading := false }
  | .error e =>
      { s with error := some (jsOr e.data "Failed to fetch jobs"), isLoading := false }

def fetchRecommended (r : Except ApiError (List Job)) (s : JobsState) : JobsState :=
  fetchRecommendedResolve r (fetchRecommendedStart s)

/-- `getCurrentJob()`: `jobs[currentIndex] || null`. -/
def getCurrentJob (s : JobsState) : Option Job :=
  s.jobs[s.currentIndex]?

/-- `skipJob()`: advances only while `currentIndex < jobs.length - 1`.
JS evaluates `length - 1` as `-1` for an empty feed, in which case the
guard is false just as with ℕ truncated subtraction. -/
def skipJob (s : JobsState) : JobsState :=
  if s.currentIndex < s.jobs.length - 1 then
    { s with currentIndex := s.currentIndex + 1 }
  else s

/-- `saveJob(job)` with the outcome of `POST /saved-jobs/` passed as
`serverOk`.  On success it appends the raw job and advances the cursor;
on failure the `catch` only logs, leaving the state untouched. -/
def saveJob (j : Job) (serverOk : Bool) (s : JobsState) : JobsState :=
  if serverOk then
    { s with savedJobs := s.savedJobs ++ [SavedItem.feedJob j],
             currentIndex := s.currentIndex + 1 }
  else s

/-- `applyToJob(job)`: like `saveJob` but appends to `appliedJobs` and
reports the outcome to the caller. -/
def applyToJob (j : Job) (serverOk : Bool) (s : JobsState) : JobsState × Bool :=
  if serverOk then
    ({ s with appliedJobs := s.appliedJobs ++ [SavedItem.feedJob j],
              currentIndex := s.currentIndex + 1 }, true)
  else (s, false)

/-- `fetchSavedJobs()`: on success replaces both collections with the
status partition of the server list; the `catch` only logs. -/
def fetchSavedJobs (r : Except ApiError (List SavedEntry)) (s : JobsState) : JobsState :=
  match r with
  | .ok l =>
      { s with
          savedJobs := (l.filter (fun j => j.status = "saved")).map SavedItem.serverEntry,
          appliedJobs := (l.filter (fun j => j.status = "applied")).map SavedItem.serverEntry }
  | .error _ => s

/-- `hasMoreJobs()`: `currentIndex < jobs.length`. -/
def hasMoreJobs (s : JobsState) : Bool :=
  s.currentIndex < s.jobs.length

/-- One store mutation, with the outcome of any remote call it makes
carried in the operation. -/
inductive JobsOp where
  | fetchRecommended (r : Except ApiError (List Job))
  | skipJob
  | saveJob (j : Job) (serverOk : Bool)
  | applyToJob (j : Job) (serverOk : Bool)
  | fetchSavedJobs (r : Except ApiError (List SavedEntry))
deriving Repr

def jobsStep : JobsOp → JobsState → JobsState
  | .fetchRecommended r, s => fetchRecommended r s
  | .skipJob, s => skipJob s
  | .saveJob j ok, s => saveJob j ok s
  | .applyToJob j ok, s => (applyToJob j ok s).1
  | .fetchSavedJobs r, s => fetchSavedJobs r s

/-- States of the jobs store reachable from the initial state through the
store mutators, with `saveJob`/`applyToJob` fired only while a current
job exists — the repository's only call site (`handleSwipe` in the
discover page) guards them with `if (!currentJob) return`. -/
inductive ReachableJobs : JobsState → Prop where
  | init : ReachableJobs initJobsState
  | fetchRec (r : Except ApiError (List Job)) {s : JobsState} :
      ReachableJobs s → ReachableJobs (jobsStep (.fetchRecommended r) s)
  | skip {s : JobsState} :
      ReachableJobs s → ReachableJobs (jobsStep .skipJob s)
  | save (j : Job) (ok : Bool) {s : JobsState} :
      ReachableJobs s → s.currentIndex < s.jobs.length →
      ReachableJobs (jobsStep (.saveJob j ok) s)
  | applyJob (j : Job) (ok : Bool) {s : JobsState} :
      ReachableJobs s → s.currentIndex < s.jobs.length →
      ReachableJobs (jobsStep (.applyToJob j ok) s)
  | fetchSaved (r : Except ApiError (List SavedEntry)) {s : JobsState} :
      ReachableJobs s → ReachableJobs (jobsStep (.fetchSavedJobs r) s)

/-- `n` successive calls to `skipJob()`. -/
def skipN : Nat → JobsState → JobsState
  | 0, s => s
  | n + 1, s => skipN n (skipJob s)

/-! ### Swipe card (`src/unnamed/part_002`, `handleDragEnd`) -/

inductive SwipeAction where
  | applyAct
  | skipAct
  | saveAct
deriving Repr, DecidableEq

/-- `handleDragEnd`: threshold 100; horizontal branches first, then the
upward vertical branch, else nothing fires.  Offsets are modelled as
integers; every comparison in the source is a strict order test so the
embedding is faithful on integral offsets. -/
def handleDragEnd (offsetX offsetY : Int) : Option SwipeAction :=
  if offsetX > 100 then some .applyAct
  else if offsetX < -100 then some .skipAct
  else if offsetY < -100 then some .saveAct
  else none

/-! ### Discover page (`src/frontend/src/pages/SavedJobsPage.jsx`, second
document: `DiscoverPage.handleSwipe`) -/

structure DiscoverUI where
  showApplyModal : Bool := false
  selectedJob : Option Job := none
deriving Repr, DecidableEq

/-- Result of one `handleSwipe` dispatch: the new store state, the new
page-local UI state, and how many server calls were issued. -/
structure SwipeEffect where
  store : JobsState
  ui : DiscoverUI
  serverCalls : Nat
deriving Repr, DecidableEq

/-- `handleSwipe(action)`: reads `jobs[currentIndex]`; if there is no
current job it returns immediately.  Both the drag gesture and the
buttons route through this one function.  `skip` mutates the cursor
only; `save` issues one server call via `saveJob`; `apply` opens the
modal without touching the store. -/
def handleSwipe (action : SwipeAction) (saveOk : Bool)
    (s : JobsState) (ui : DiscoverUI) : SwipeEffect :=
  match s.jobs[s.currentIndex]? with
  | none => ⟨s, ui, 0⟩
  | some j =>
      match action with
      | .skipAct => ⟨skipJob s, ui, 0⟩
      | .saveAct => ⟨saveJob j saveOk s, ui, 1⟩
      | .applyAct => ⟨s, { showApplyModal := true, selectedJob := some j }, 0⟩

/-! ### HTTP gateway (`src/frontend/src/api/client.js`, response
interceptor) -/

/-- Environment for one originating request: the outcome of the (at most
one) token-refresh call, and the status the replayed request would
receive. -/
structure GwEnv where
  refreshRes : Except ApiError String
  replayStatus : Nat
deriving Repr

/-- Observable outcome of running a response through the interceptor:
the final storage, whether the page navigated to `/login`, how many
refresh calls and replays were issued, and the final status delivered to
the caller. -/
structure GwOutcome where
  storage : Storage
  navigate : Bool
  refreshes : Nat
  replays : Nat
  result : Except Nat Nat
deriving Repr

/-- The response interceptor.  A status below 400 resolves directly.  A
401 on a request whose `_retry` flag is unset sets the flag, refreshes
the token if a refresh token is stored, and on success replays the
original request — the replayed response re-enters this very
interceptor with `retried = true`.  A failed refresh clears both tokens
and navigates to `/login`; every other error is rejected unchanged. -/
def processResponse (env : GwEnv) (st : Storage) (retried : Bool)
    (status : Nat) : GwOutcome :=
  if status < 400 then ⟨st, false, 0, 0, .ok status⟩
  else if status = 401 ∧ retried = false then
    match st.refresh with
    | none => ⟨st, false, 0, 0, .error status⟩
    | some _ =>
        match env.refreshRes with
        | .ok newAccess =>
            let sub := processResponse env { st with access := some newAccess }
              true env.replayStatus
            ⟨sub.storage, sub.navigate, sub.refreshes + 1, sub.replays + 1, sub.result⟩
        | .error _ =>
            ⟨{ access := none, refresh := none }, true, 1, 0, .error status⟩
  else ⟨st, false, 0, 0, .error status⟩
termination_by (if retried then 0 else 1)
decreasing_by
  simp_all

/-! ### Helper lemmas -/

theorem skipJob_jobs (s : JobsState) : (skipJob s).jobs = s.jobs := by
  unfold skipJob
  split <;> rfl

theorem skipN_index (k : Nat) : ∀ s : JobsState,
    s.currentIndex ≤ s.jobs.length - 1 →
    (skipN k s).currentIndex = min (s.currentIndex + k) (s.jobs.length - 1) := by
  induction k with
  | zero =>
      intro s h
      simp only [skipN]
      omega
  | succ n ih =>
      intro s h
      show (skipN n (skipJob s)).currentIndex = _
      by_cases hlt : s.currentIndex < s.jobs.length - 1
      · have h2 : skipJob s = { s with currentIndex := s.currentIndex + 1 } := by
          unfold skipJob
          rw [if_pos hlt]
        rw [h2, ih]
        · simp only []
          omega
        · simp only []
          omega
      · have h2 : skipJob s = s := by
          unfold skipJob
          rw [if_neg hlt]
        rw [h2, ih s h]
        omega

theorem gw_retried_refreshes (env : GwEnv) (st : Storage) (status : Nat) :
    (processResponse env st true status).refreshes = 0 := by
  unfold processResponse
  by_cases h : status < 400 <;> simp [h]

theorem gw_retried_replays (env : GwEnv) (st : Storage) (status : Nat) :
    (processResponse env st true status).replays = 0 := by
  unfold processResponse
  by_cases h : status < 400 <;> simp [h]

theorem reachable_index_le (s : JobsState) (hs : ReachableJobs s) :
    s.currentIndex ≤ s.jobs.length := by
  induction hs with
  | init => exact Nat.le_refl 0
  | fetchRec r hs ih =>
      cases r with
      | ok l =>
          simp [jobsStep, fetchRecommended, fetchRecommendedResolve, fetchRecommendedStart]
      | error e =>
          simpa [jobsStep, fetchRecommended, fetchRecommendedResolve,
            fetchRecommendedStart] using ih
  | skip hs ih =>
      simp only [jobsStep, skipJob]
      split
      · simp only []
        omega
      · exact ih
  | save j ok hlt ih =>
      cases ok <;> simp [jobsStep, saveJob] <;> omega
  | applyJob j ok hlt ih =>
      cases ok <;> simp [jobsStep, applyToJob] <;> omega
  | fetchSaved r hs ih =>
      cases r <;> simpa [jobsStep, fetchSavedJobs] using ih

/-! ### Claims -/

/-- C1 (counterexample): `login` with a successful credential call but a
failed user/profile fetch still returns `true` and sets
`isAuthenticated` to `true`, while `user` is `null` and no error is
recorded — refuting both "success implies `user !== null`" and "a
profile-fetch failure transitions to the error state". -/
theorem claim1_counterexample :
    (login (.ok ⟨"acc", "ref"⟩) (.error {}) (.ok ⟨1⟩) initAuthState initStorage).returned
      = true ∧
    (login (.ok ⟨"acc", "ref"⟩) (.error {}) (.ok ⟨1⟩) initAuthState initStorage).state.user
      = none ∧
    (login (.ok ⟨"acc", "ref"⟩) (.error {}) (.ok ⟨1⟩) initAuthState initStorage).state.error
      = none ∧
    (login (.ok ⟨"acc", "ref"⟩) (.error {}) (.ok ⟨1⟩) initAuthState
      initStorage).state.isAuthenticated = true := by
  exact ⟨rfl, rfl, rfl, rfl⟩

/-- C1 (amended): a successful `login` guarantees `isAuthenticated = true`,
and additionally `user ≠ null` when the user/profile fetch succeeded; a
failure of the credential call itself returns `false`, surfaces an error
message, and stores no tokens; but a failure of the user/profile fetch
is swallowed — `login` still returns `true` with `isAuthenticated = true`
and `user = null`. -/
theorem claim1_amended (lr : Except ApiError Tokens) (ur : Except ApiError User)
    (pr : Except ApiError Profile) (s : AuthState) (st : Storage) :
    ((login lr ur pr s st).returned = true →
      (login lr ur pr s st).state.isAuthenticated = true) ∧
    (∀ tok u p, lr = .ok tok → ur = .ok u → pr = .ok p →
      (login lr ur pr s st).returned = true ∧
      (login lr ur pr s st).state.user = some u) ∧
    (∀ e, lr = .error e →
      (login lr ur pr s st).returned = false ∧
      (login lr ur pr s st).state.error = some (jsOr e.detail "Login failed") ∧
      (login lr ur pr s st).state.isAuthenticated = s.isAuthenticated ∧
      (login lr ur pr s st).storage = st) ∧
    (∀ tok e, lr = .ok tok → ur = .error e →
      (login lr ur pr s st).returned = true ∧
      (login lr ur pr s st).state.user = none) := by
  refine ⟨?_, ?_, ?_, ?_⟩
  · cases lr with
    | ok tok => intro _; rfl
    | error e =>
        intro h
        exact absurd h (by simp [login, loginResolve, loginStart])
  · rintro tok u p rfl rfl rfl
    exact ⟨rfl, rfl⟩
  · rintro e rfl
    exact ⟨rfl, rfl, rfl, rfl⟩
  · rintro tok e rfl rfl
    cases pr <;> exact ⟨rfl, rfl⟩

/-- C1 witness: fully successful login at concrete inputs. -/
theorem claim1_witness :
    (login (.ok ⟨"a", "r"⟩) (.ok ⟨1, "u@e"⟩) (.ok ⟨1⟩) initAuthState initStorage).returned
      = true ∧
    (login (.ok ⟨"a", "r"⟩) (.ok ⟨1, "u@e"⟩) (.ok ⟨1⟩) initAuthState initStorage).state.user
      = some ⟨1, "u@e"⟩ :=
  (claim1_amended _ _ _ _ _).2.1 _ _ _ rfl rfl rfl

/-- C2: for every originating request (retry flag unset), the interceptor
issues at most one refresh call and at most one replay — the replayed
response re-enters the interceptor with the flag set, so a 401 on the
replay is rejected without another refresh — and a failed refresh clears
both stored tokens and navigates to the login page. -/
theorem claim2_refresh_budget (env : GwEnv) (st : Storage) (status : Nat) :
    (processResponse env st false status).refreshes ≤ 1 ∧
    (processResponse env st false status).replays ≤ 1 ∧
    (∀ rt e, status = 401 → st.refresh = some rt → env.refreshRes = .error e →
      (processResponse env st false status).storage = ⟨none, none⟩ ∧
      (processResponse env st false status).navigate = true) := by
  unfold processResponse
  by_cases h4 : status < 400
  · refine ⟨by simp [h4], by simp [h4], ?_⟩
    intro rt e h401
    omega
  · by_cases h1 : status = 401
    · subst h1
      cases hr : st.refresh with
      | none =>
          refine ⟨by simp [h4, hr], by simp [h4, hr], ?_⟩
          intro rt e _ hrt _
          simp [hr] at hrt
      | some rt0 =>
          cases hre : env.refreshRes with
          | ok a =>
              refine ⟨?_, ?_, ?_⟩
              · simp [h4, hr, hre, gw_retried_refreshes]
              · simp [h4, hr, hre, gw_retried_replays]
              · intro rt e _ _ hfail
                simp [hre] at hfail
          | error e0 =>
              refine ⟨by simp [h4, hr, hre], by simp [h4, hr, hre], ?_⟩
              intro rt e _ _ _
              constructor <;> simp [h4, hr, hre]
    · refine ⟨by simp [h4, h1], by simp [h4, h1], ?_⟩
      intro rt e h401
      exact absurd h401 h1

/-- C2 witness: a 401 whose refresh succeeds but whose replay is again a
401 performs exactly one refresh and one replay; a 401 whose refresh
fails clears the storage and navigates to login. -/
theorem claim2_witness :
    (processResponse ⟨.ok "newtok", 401⟩ ⟨some "a", some "r"⟩ false 401).refreshes ≤ 1 ∧
    (processResponse ⟨.ok "newtok", 401⟩ ⟨some "a", some "r"⟩ false 401).replays ≤ 1 ∧
    (processResponse ⟨.error {}, 200⟩ ⟨some "a", some "r"⟩ false 401).storage
      = ⟨none, none⟩ ∧
    (processResponse ⟨.error {}, 200⟩ ⟨some "a", some "r"⟩ false 401).navigate = true := by
  refine ⟨(claim2_refresh_budget ⟨.ok "newtok", 401⟩ ⟨some "a", some "r"⟩ 401).1,
    (claim2_refresh_budget ⟨.ok "newtok", 401⟩ ⟨some "a", some "r"⟩ 401).2.1,
    ((claim2_refresh_budget ⟨.error {}, 200⟩ ⟨some "a", some "r"⟩ 401).2.2
      "r" {} rfl rfl rfl).1,
    ((claim2_refresh_budget ⟨.error {}, 200⟩ ⟨some "a", some "r"⟩ 401).2.2
      "r" {} rfl rfl rfl).2⟩

/-- C3 (counterexample): a reachable state — the feed holds one job and
the cursor is at 0 — in which `skipJob` does not advance the cursor by 1
(it is clamped at the last index), refuting "advances by exactly 1 on
every skip, save, or apply operation". -/
theorem claim3_counterexample :
    ReachableJobs (jobsStep (.fetchRecommended (.ok [⟨1, "", ""⟩])) initJobsState) ∧
    (jobsStep (.fetchRecommended (.ok [⟨1, "", ""⟩])) initJobsState).currentIndex = 0 ∧
    (jobsStep .skipJob
      (jobsStep (.fetchRecommended (.ok [⟨1, "", ""⟩])) initJobsState)).currentIndex
      = 0 := by
  exact ⟨ReachableJobs.fetchRec _ ReachableJobs.init, rfl, by decide⟩

/-- C3 (amended): in every state reachable through the store mutators
with `saveJob`/`applyToJob` fired only while a current job exists (the
guard of the store's only caller, `handleSwipe`), the cursor satisfies
`0 ≤ index ≤ length`; `skipJob` advances it by 1 only when it is below
the last index (else it is unchanged), `saveJob`/`applyToJob` advance it
by 1 only when the server call succeeds (else it is unchanged),
`fetchSavedJobs` leaves it alone, the only operation that can lower it
is a feed refetch, and a successful refetch resets it to 0. -/
theorem claim3_amended (s : JobsState) (hs : ReachableJobs s) :
    s.currentIndex ≤ s.jobs.length ∧
    (jobsStep .skipJob s).currentIndex
      = (if s.currentIndex < s.jobs.length - 1 then s.currentIndex + 1
         else s.currentIndex) ∧
    (∀ j ok, (jobsStep (.saveJob j ok) s).currentIndex
      = (if ok then s.currentIndex + 1 else s.currentIndex)) ∧
    (∀ j ok, (jobsStep (.applyToJob j ok) s).currentIndex
      = (if ok then s.currentIndex + 1 else s.currentIndex)) ∧
    (∀ r, (jobsStep (.fetchSavedJobs r) s).currentIndex = s.currentIndex) ∧
    (∀ op, (jobsStep op s).currentIndex < s.currentIndex →
      ∃ r, op = JobsOp.fetchRecommended r) ∧
    (∀ l, (jobsStep (.fetchRecommended (.ok l)) s).currentIndex = 0) := by
  refine ⟨reachable_index_le s hs, ?_, ?_, ?_, ?_, ?_, ?_⟩
  · simp only [jobsStep, skipJob]
    split <;> simp
  · intro j ok
    cases ok <;> simp [jobsStep, saveJob]
  · intro j ok
    cases ok <;> simp [jobsStep, applyToJob]
  · intro r
    cases r <;> simp [jobsStep, fetchSavedJobs]
  · intro op hlt
    cases op with
    | fetchRecommended r => exact ⟨r, rfl⟩
    | skipJob =>
        exfalso
        simp only [jobsStep, skipJob] at hlt
        revert hlt
        split <;> intro h <;> simp at h
    | saveJob j ok =>
        exfalso
        cases ok <;> simp [jobsStep, saveJob] at hlt
    | applyToJob j ok =>
        exfalso
        cases ok <;> simp [jobsStep, applyToJob] at hlt
    | fetchSavedJobs r =>
        exfalso
        cases r <;> simp [jobsStep, fetchSavedJobs] at hlt
  · intro l
    rfl

/-- C3 witness: the amended statement at the initial (reachable) state. -/
theorem claim3_witness :
    initJobsState.currentIndex ≤ initJobsState.jobs.length ∧
    (jobsStep (JobsOp.saveJob ⟨1, "", ""⟩ true) initJobsState).currentIndex
      = initJobsState.currentIndex + 1 :=
  ⟨(claim3_amended _ ReachableJobs.init).1,
   (claim3_amended _ ReachableJobs.init).2.2.1 ⟨1, "", ""⟩ true⟩

/-- C4 (counterexample): on the empty feed (N = 0) and cursor 0, after N
calls to `skipJob` the cursor is 0, which differs from N - 1 = -1 and
already equals N — so through skips alone the cursor does sit at N. -/
theorem claim4_counterexample :
    initJobsState.jobs.length = 0 ∧
    (skipN initJobsState.jobs.length initJobsState).currentIndex
      = initJobsState.jobs.length ∧
    ((skipN initJobsState.jobs.length initJobsState).currentIndex : Int)
      ≠ (initJobsState.jobs.length : Int) - 1 := by
  exact ⟨rfl, rfl, by decide⟩

/-- C4 (amended): for every non-empty feed of length N with the cursor at
0, N calls to `skipJob` leave the cursor at N - 1, and no number of
skips ever moves it to N (it is clamped at the last index). -/
theorem claim4_amended (s : JobsState) (hlen : 1 ≤ s.jobs.length)
    (h0 : s.currentIndex = 0) :
    (skipN s.jobs.length s).currentIndex = s.jobs.length - 1 ∧
    ∀ k : Nat, (skipN k s).currentIndex < s.jobs.length := by
  constructor
  · rw [skipN_index _ s (by omega)]
    omega
  · intro k
    rw [skipN_index k s (by omega)]
    omega

/-- C4 witness: a feed of length 2 — two skips end at index 1. -/
theorem claim4_witness :
    1 ≤ (JobsState.mk [⟨1, "", ""⟩, ⟨2, "", ""⟩] 0 [] [] false none).jobs.length ∧
    (skipN 2 (JobsState.mk [⟨1, "", ""⟩, ⟨2, "", ""⟩] 0 [] [] false none)).currentIndex
      = 1 :=
  ⟨by decide,
   (claim4_amended (JobsState.mk [⟨1, "", ""⟩, ⟨2, "", ""⟩] 0 [] [] false none)
     (by decide) rfl).1⟩

/-- C5: drag release against threshold 100 — `x > 100` fires apply,
`x < -100` fires skip, an in-band `x` with `y < -100` fires save, and an
in-band `x` with `y ≥ -100` fires nothing (the card resets).  Horizontal
is decided first, so `x > 100` fires apply for every `y`; the `Option`
result makes "at most one decision per release" structural. -/
theorem claim5_drag_thresholds (x y : Int) :
    (100 < x → handleDragEnd x y = some SwipeAction.applyAct) ∧
    (x < -100 → handleDragEnd x y = some SwipeAction.skipAct) ∧
    (-100 ≤ x → x ≤ 100 → y < -100 → handleDragEnd x y = some SwipeAction.saveAct) ∧
    (-100 ≤ x → x ≤ 100 → -100 ≤ y → handleDragEnd x y = none) := by
  refine ⟨?_, ?_, ?_, ?_⟩
  · intro h
    unfold handleDragEnd
    rw [if_pos h]
  · intro h
    unfold handleDragEnd
    rw [if_neg (by omega), if_pos h]
  · intro h1 h2 h3
    unfold handleDragEnd
    rw [if_neg (by omega), if_neg (by omega), if_pos h3]
  · intro h1 h2 h3
    unfold handleDragEnd
    rw [if_neg (by omega), if_neg (by omega), if_neg (by omega)]

/-- C5 witness: the spec's four sample gestures, plus a combined gesture
crossing both thresholds resolving to the horizontal outcome. -/
theorem claim5_witness :
    handleDragEnd 150 0 = some SwipeAction.applyAct ∧
    handleDragEnd (-150) 0 = some SwipeAction.skipAct ∧
    handleDragEnd 0 (-150) = some SwipeAction.saveAct ∧
    handleDragEnd 50 0 = none ∧
    handleDragEnd 150 (-150) = some SwipeAction.applyAct :=
  ⟨(claim5_drag_thresholds 150 0).1 (by decide),
   (claim5_drag_thresholds (-150) 0).2.1 (by decide),
   (claim5_drag_thresholds 0 (-150)).2.2.1 (by decide) (by decide) (by decide),
   (claim5_drag_thresholds 50 0).2.2.2 (by decide) (by decide) (by decide),
   (claim5_drag_thresholds 150 (-150)).1 (by decide)⟩

/-- C6: when the persistence call fails, `saveJob` leaves the whole store
state unchanged (no append, no cursor advance, error merely logged and
suppressed — it returns nothing to its caller), and `applyToJob` leaves
the state unchanged and reports `false` to its caller. -/
theorem claim6_failure_leaves_state (j : Job) (s : JobsState) :
    saveJob j false s = s ∧ applyToJob j false s = (s, false) := by
  constructor
  · simp [saveJob]
  · simp [applyToJob]

/-- C7: a successful `fetchSavedJobs` replaces both collections with the
server partition by status tag — an entry lands in `savedJobs` exactly
when its status is "saved", in `appliedJobs` exactly when it is
"applied", and no optimistic local entry survives; the spec's sample
response of one saved and two applied entries yields lengths 1 and 2. -/
theorem claim7_partition (l : List SavedEntry) (s : JobsState) :
    (∀ e : SavedEntry,
      SavedItem.serverEntry e ∈ (fetchSavedJobs (.ok l) s).savedJobs ↔
        e ∈ l ∧ e.status = "saved") ∧
    (∀ e : SavedEntry,
      SavedItem.serverEntry e ∈ (fetchSavedJobs (.ok l) s).appliedJobs ↔
        e ∈ l ∧ e.status = "applied") ∧
    (∀ j : Job, SavedItem.feedJob j ∉ (fetchSavedJobs (.ok l) s).savedJobs ∧
      SavedItem.feedJob j ∉ (fetchSavedJobs (.ok l) s).appliedJobs) ∧
    (fetchSavedJobs
      (.ok [⟨1, none, "saved"⟩, ⟨2, none, "applied"⟩, ⟨3, none, "applied"⟩])
      s).savedJobs.length = 1 ∧
    (fetchSavedJobs
      (.ok [⟨1, none, "saved"⟩, ⟨2, none, "applied"⟩, ⟨3, none, "applied"⟩])
      s).appliedJobs.length = 2 := by
  refine ⟨?_, ?_, ?_, rfl, rfl⟩
  · intro e
    simp only [fetchSavedJobs, List.mem_map, List.mem_filter]
    constructor
    · rintro ⟨e2, ⟨hmem, hst⟩, heq⟩
      cases heq
      exact ⟨hmem, by simpa using hst⟩
    · rintro ⟨hmem, hst⟩
      exact ⟨e, ⟨hmem, by simpa using hst⟩, rfl⟩
  · intro e
    simp only [fetchSavedJobs, List.mem_map, List.mem_filter]
    constructor
    · rintro ⟨e2, ⟨hmem, hst⟩, heq⟩
      cases heq
      exact ⟨hmem, by simpa using hst⟩
    · rintro ⟨hmem, hst⟩
      exact ⟨e, ⟨hmem, by simpa using hst⟩, rfl⟩
  · intro j
    constructor <;> simp [fetchSavedJobs]

/-- C8: a successful `fetchRecommended` replaces the whole feed and
resets the cursor to 0; a failed one leaves the previous feed and cursor
unchanged and records the surfaced message in the error field. -/
theorem claim8_fetchRecommended (l : List Job) (e : ApiError) (s : JobsState) :
    (fetchRecommended (.ok l) s).jobs = l ∧
    (fetchRecommended (.ok l) s).currentIndex = 0 ∧
    (fetchRecommended (.error e) s).jobs = s.jobs ∧
    (fetchRecommended (.error e) s).currentIndex = s.currentIndex ∧
    (fetchRecommended (.error e) s).error = some (jsOr e.data "Failed to fetch jobs") :=
  ⟨rfl, rfl, rfl, rfl, rfl⟩

/-- C9 (counterexample): `saveJob` is a store mutator that can fail, yet
a failed save leaves the error field at `null` and never raises
`isLoading`; `fetchUser` likewise fails without recording an error or
touching `isLoading` — refuting "every mutator that can fail sets the
error field and every async mutator sets isLoading". -/
theorem claim9_counterexample :
    (jobsStep (.saveJob ⟨1, "", ""⟩ false) initJobsState).error = none ∧
    (jobsStep (.saveJob ⟨1, "", ""⟩ false) initJobsState).isLoading = false ∧
    (fetchUser (.error {}) (.ok ⟨1⟩) initAuthState).error = none ∧
    (fetchUser (.error {}) (.ok ⟨1⟩) initAuthState).isLoading = false :=
  ⟨rfl, rfl, rfl, rfl⟩

/-- C9 (amended): the busy/error contract holds only for `login`,
`register`, `updateProfile` and `fetchRecommended` — each sets the error
field on failure, and `login`/`fetchRecommended` raise `isLoading` at
start and lower it on resolution — while `fetchUser`, `saveJob`,
`applyToJob` and `fetchSavedJobs` swallow their failures: they set
neither `error` nor `isLoading`, leaving the state unchanged (or, for
`fetchUser`, only collapsing the session fields). -/
theorem claim9_amended (s : AuthState) (s2 : JobsState) (e : ApiError)
    (lr : Except ApiError Tokens) (ur : Except ApiError User)
    (pr : Except ApiError Profile) (st : Storage) (j : Job) :
    (loginStart s).isLoading = true ∧
    (login lr ur pr s st).state.isLoading = false ∧
    (login (.error e) ur pr s st).state.error = some (jsOr e.detail "Login failed") ∧
    (register (.error e) lr ur pr s st).state.error
      = some (jsOr e.data "Registration failed") ∧
    (updateProfile (.error e) s).1.error = some (jsOr e.data "Update failed") ∧
    (updateProfile (.error e) s).1.isLoading = false ∧
    (fetchRecommendedStart s2).isLoading = true ∧
    (∀ rr : Except ApiError (List Job), (fetchRecommended rr s2).isLoading = false) ∧
    (fetchRecommended (.error e) s2).error = some (jsOr e.data "Failed to fetch jobs") ∧
    (fetchUser (.error e) pr s).error = s.error ∧
    (fetchUser (.error e) pr s).isLoading = s.isLoading ∧
    saveJob j false s2 = s2 ∧
    (applyToJob j false s2).1 = s2 ∧
    fetchSavedJobs (.error e) s2 = s2 := by
  refine ⟨rfl, ?_, rfl, rfl, rfl, rfl, rfl, ?_, rfl, ?_, ?_, ?_, ?_, rfl⟩
  · cases lr <;> rfl
  · intro rr
    cases rr <;> rfl
  · cases pr <;> rfl
  · cases pr <;> rfl
  · simp [saveJob]
  · simp [applyToJob]

/-- C10: when the cursor is at or past the end of the feed there is no
current job, and `handleSwipe` — the single dispatch point shared by the
drag gesture and the three buttons — returns without any store mutation,
server call or modal opening, for each of skip, save and apply. -/
theorem claim10_exhausted_noop (a : SwipeAction) (ok : Bool) (s : JobsState)
    (ui : DiscoverUI) (h : s.jobs.length ≤ s.currentIndex) :
    handleSwipe a ok s ui = ⟨s, ui, 0⟩ := by
  unfold handleSwipe
  rw [List.getElem?_eq_none h]

/-- C10 witness: the empty initial feed is exhausted, and each of the
three actions is a no-op on it. -/
theorem claim10_witness :
    initJobsState.jobs.length ≤ initJobsState.currentIndex ∧
    handleSwipe SwipeAction.applyAct true initJobsState {} = ⟨initJobsState, {}, 0⟩ ∧
    handleSwipe SwipeAction.skipAct true initJobsState {} = ⟨initJobsState, {}, 0⟩ ∧
    handleSwipe SwipeAction.saveAct false initJobsState {} = ⟨initJobsState, {}, 0⟩ :=
  ⟨Nat.le_refl 0,
   claim10_exhausted_noop _ _ _ _ (Nat.le_refl 0),
   claim10_exhausted_noop _ _ _ _ (Nat.le_refl 0),
   claim10_exhausted_noop _ _ _ _ (Nat.le_refl 0)⟩

end NextStep
